import Mathlib

/-!
# Verification of the lab-report result-interpretation engine

Shallow embedding of the `AIReportService` classification logic
(`determineResultStatus`, `determineSeverity`, `getClinicalSignificance`,
`identifyCriticalValues`, `calculateRiskScore`, `generateRecommendations`).

JavaScript numbers obtained from `parseFloat` are modelled as `Option ℚ`,
with `none` standing for `NaN`; comparisons against `NaN` are `false`, as
in JavaScript.  `Math.round` is round-half-towards-positive-infinity, and
`Math.round(NaN)` is `NaN`, modelled by an `Option ℤ` result.
-/

namespace AIReportService

/-- A JavaScript value fed to `parseFloat`, modelled by the outcome of that
parse: `some q` for a finite numeric result, `none` when `parseFloat`
yields `NaN` (non-numeric strings, `undefined`, missing fields). -/
structure JSVal where
  parseFloat : Option ℚ
deriving DecidableEq, Repr

/-- Convenience constructor for a value that parses to a number. -/
def JSVal.num (q : ℚ) : JSVal := ⟨some q⟩

/-- Convenience constructor for a value whose `parseFloat` is `NaN`. -/
def JSVal.nan : JSVal := ⟨none⟩

/-- JavaScript `<` where either operand may be `NaN`: any comparison with
`NaN` is `false`. -/
def jsLt : Option ℚ → Option ℚ → Bool
  | some a, some b => a < b
  | _, _ => false

/-- JavaScript `>` where either operand may be `NaN`. -/
def jsGt : Option ℚ → Option ℚ → Bool
  | some a, some b => a > b
  | _, _ => false

/-- JavaScript `Math.round` on a finite number: round half towards `+∞`. -/
def jsRound (q : ℚ) : ℤ := ⌊q + 1/2⌋

/-- One bound of a reference range: the raw `min` and `max` fields as they
appear before numeric parsing. -/
structure Range where
  min : JSVal
  max : JSVal
deriving DecidableEq, Repr

/-- The `referenceRange` object: a `normal` bound plus optional `male` /
`female` overrides.  Each field is `none` when absent (falsy). -/
structure ReferenceRange where
  normal : Option Range
  male : Option Range
  female : Option Range
deriving DecidableEq, Repr

/-- The patient descriptor fields the classifier reads. -/
structure Patient where
  gender : String
deriving DecidableEq, Repr

/-- The status values returned by `determineResultStatus`. -/
inductive Status where
  | unknown
  | text_result
  | low
  | high
  | normal
deriving DecidableEq, Repr

/-- The severity tiers returned by `determineSeverity`. -/
inductive Severity where
  | normal
  | abnormal
  | critical
deriving DecidableEq, Repr

/-- The reference range selected for the comparison, after the gender
override step of `determineResultStatus`:
`let range = referenceRange.normal; if (patient.gender === 'male' &&
referenceRange.male) range = referenceRange.male; else if (...female...)`. -/
def selectRange (rr : ReferenceRange) (normalRange : Range)
    (patient : Patient) : Range :=
  if patient.gender = "male" ∧ rr.male.isSome then rr.male.getD normalRange
  else if patient.gender = "female" ∧ rr.female.isSome then
    rr.female.getD normalRange
  else normalRange

/-- `determineResultStatus(value, referenceRange, patient)`: guards for a
missing/falsy `referenceRange` or `referenceRange.normal` (`unknown`), an
unparseable value (`text_result`), then compares the parsed value against
the parsed bounds of the gender-selected range. -/
def determineResultStatus (value : JSVal) (referenceRange : Option ReferenceRange)
    (patient : Patient) : Status :=
  match referenceRange with
  | none => Status.unknown
  | some rr =>
    match rr.normal with
    | none => Status.unknown
    | some normalRange =>
      match value.parseFloat with
      | none => Status.text_result
      | some numericValue =>
        let range := selectRange rr normalRange patient
        let minValue := range.min.parseFloat
        let maxValue := range.max.parseFloat
        if jsLt (some numericValue) minValue then Status.low
        else if jsGt (some numericValue) maxValue then Status.high
        else Status.normal

/-- ASCII model of the character lowering performed by JavaScript
`String.prototype.toLowerCase` (parameter names are ASCII). -/
def lowerChar (c : Char) : Char :=
  if 65 ≤ c.toNat ∧ c.toNat ≤ 90 then Char.ofNat (c.toNat + 32) else c

/-- ASCII model of JavaScript `parameter.toLowerCase()`. -/
def jsToLowerCase (s : String) : String := ⟨s.data.map lowerChar⟩

/-- The fixed `criticalThresholds` table of `determineSeverity`, keyed by
lower-cased parameter name; the pair is `(high, low)`. -/
def criticalThresholds : String → Option (ℚ × ℚ)
  | "glucose" => some (400, 40)
  | "creatinine" => some (5, 0)
  | "hemoglobin" => some (20, 7)
  | "platelets" => some (1000, 50)
  | "potassium" => some (6, 2.5)
  | "sodium" => some (155, 125)
  | _ => none

/-- `determineSeverity(parameter, value, status)`: `normal` status returns
immediately; otherwise a critical-threshold lookup on the lower-cased
parameter, combined with a parseable value and the high/low comparisons,
may yield `critical`; every other path yields the final
`status === 'normal' ? 'normal' : 'abnormal'`. -/
def determineSeverity (parameter : String) (value : JSVal)
    (status : Status) : Severity :=
  if status = Status.normal then Severity.normal
  else
    let decided : Bool :=
      match value.parseFloat, criticalThresholds (jsToLowerCase parameter) with
      | some numericValue, some threshold =>
        decide ((status = Status.high ∧ numericValue ≥ threshold.1) ∨
          (status = Status.low ∧ numericValue ≤ threshold.2))
      | _, _ => false
    if decided then Severity.critical
    else if status = Status.normal then Severity.normal else Severity.abnormal

/-- The fixed `significance` table of `getClinicalSignificance`, keyed by
lower-cased parameter and then by status. -/
def significanceTable (parameter : String) (status : Status) : Option String :=
  match parameter, status with
  | "glucose", Status.high => some "May indicate diabetes or prediabetes"
  | "glucose", Status.low => some "May indicate hypoglycemia"
  | "cholesterol", Status.high => some "Increased risk of heart disease"
  | "cholesterol", Status.low => some "Generally not concerning"
  | "hemoglobin", Status.high => some "May indicate dehydration or blood disorders"
  | "hemoglobin", Status.low => some "May indicate anemia"
  | _, _ => none

/-- `getClinicalSignificance(parameter, status)`:
`significance[parameter.toLowerCase()]?.[status] ||
'Consult your healthcare provider for interpretation'`. -/
def getClinicalSignificance (parameter : String) (status : Status) : String :=
  (significanceTable (jsToLowerCase parameter) status).getD
    "Consult your healthcare provider for interpretation"

/-- One analyzed result record, as assembled by `analyzeSingleResult`. -/
structure AnalyzedResult where
  parameter : String
  value : JSVal
  unit : String
  referenceRange : Option ReferenceRange
  status : Status
  explanation : String
  severity : Severity
  clinicalSignificance : String
deriving DecidableEq, Repr

/-- One entry of the `criticalValues` output of `identifyCriticalValues`. -/
structure CriticalValue where
  parameter : String
  value : JSVal
  concern : String
  urgency : String
deriving DecidableEq, Repr

/-- The `.map` step of `identifyCriticalValues`: projects a result to its
critical-value record with the fixed urgency annotation. -/
def toCriticalValue (result : AnalyzedResult) : CriticalValue :=
  { parameter := result.parameter
    value := result.value
    concern := result.explanation
    urgency := "immediate_attention_required" }

/-- `identifyCriticalValues(analyzedResults)`: filter on
`severity === 'critical'`, then map to the annotated record. -/
def identifyCriticalValues (analyzedResults : List AnalyzedResult) :
    List CriticalValue :=
  (analyzedResults.filter fun result =>
    result.severity = Severity.critical).map toCriticalValue

/-- The per-result contribution of the `switch` in `calculateRiskScore`. -/
def severityPoints : Severity → ℤ
  | Severity.critical => 3
  | Severity.abnormal => 1
  | Severity.normal => 0

/-- `calculateRiskScore(analyzedResults)`: sum the per-severity points,
divide by `analyzedResults.length * 3`, scale to 100 and `Math.round`.
On the empty list the JavaScript division is `0 / 0 = NaN` and
`Math.round(NaN)` is `NaN`, modelled as `none`. -/
def calculateRiskScore (analyzedResults : List AnalyzedResult) : Option ℤ :=
  let score := (analyzedResults.map fun result =>
    severityPoints result.severity).sum
  let maxPossibleScore : ℤ := analyzedResults.length * 3
  if maxPossibleScore = 0 then none
  else some (jsRound ((score : ℚ) / (maxPossibleScore : ℚ) * 100))

/-- The fixed list returned by `generateRecommendations` when every result
has `status === 'normal'`. -/
def allNormalRecommendations : List String :=
  ["Continue regular health checkups",
   "Maintain healthy lifestyle",
   "Follow up as recommended by your doctor"]

/-- The fixed list returned by `generateRecommendations` when some result
has `status !== 'normal'`. -/
def abnormalRecommendations : List String :=
  ["Discuss results with your healthcare provider",
   "Follow any treatment recommendations",
   "Schedule follow-up testing if advised",
   "Monitor symptoms and report changes"]

/-- `generateRecommendations(analyzedResults, report)`: binary choice on
whether the filter `status !== 'normal'` is empty. -/
def generateRecommendations (analyzedResults : List AnalyzedResult) :
    List String :=
  if (analyzedResults.filter fun r => r.status ≠ Status.normal).length = 0 then
    allNormalRecommendations
  else
    abnormalRecommendations

/-- C1: with a usable reference range (a `normal` bound is present), a value
that parses as a number, and parseable bounds `mn ≤ mx` of the active
range, the status is `low` exactly when the value is strictly below `mn`,
`high` exactly when it is strictly above `mx`, and `normal` otherwise; in
particular boundary values classify as `normal`. -/
theorem determineResultStatus_threshold_spec
    (value : JSVal) (rr : ReferenceRange) (patient : Patient)
    (normalRange : Range) (v mn mx : ℚ)
    (hnorm : rr.normal = some normalRange)
    (hv : value.parseFloat = some v)
    (hmin : (selectRange rr normalRange patient).min.parseFloat = some mn)
    (hmax : (selectRange rr normalRange patient).max.parseFloat = some mx)
    (hrange : mn ≤ mx) :
    (determineResultStatus value (some rr) patient = Status.low ↔ v < mn) ∧
    (determineResultStatus value (some rr) patient = Status.high ↔ mx < v) ∧
    (determineResultStatus value (some rr) patient = Status.normal ↔
      mn ≤ v ∧ v ≤ mx) := by
  unfold determineResultStatus
  simp only [hnorm, hv, hmin, hmax, jsLt, jsGt]
  by_cases h1 : v < mn
  · have h2 : ¬ mx < v := by
      intro h2
      exact absurd (lt_of_le_of_lt hrange h2) (not_lt_of_lt h1)
    simp [h1, h2, not_le_of_lt h1]
  · by_cases h2 : mx < v
    · simp [h1, h2, not_le_of_lt h2]
    · simp [h1, h2, le_of_not_lt h1, le_of_not_lt h2]

/-- Witness for C1 at concrete inputs: value 3 in range [1, 5] is
`normal`. -/
theorem determineResultStatus_threshold_spec_witness :
    determineResultStatus (JSVal.num 3)
      (some ⟨some ⟨JSVal.num 1, JSVal.num 5⟩, none, none⟩) ⟨"other"⟩ =
      Status.normal :=
  (determineResultStatus_threshold_spec (JSVal.num 3)
    ⟨some ⟨JSVal.num 1, JSVal.num 5⟩, none, none⟩ ⟨"other"⟩
    ⟨JSVal.num 1, JSVal.num 5⟩ 3 1 5 rfl rfl rfl rfl
    (by norm_num)).2.2.mpr (by norm_num)

/-- C4: malformed clinical data never fails the classifier: a missing
reference range or missing `normal` bound yields `unknown`, and a value
whose `parseFloat` is `NaN` (with a usable range) yields `text_result`. -/
theorem determineResultStatus_malformed_spec (value : JSVal) (patient : Patient) :
    (determineResultStatus value none patient = Status.unknown) ∧
    (∀ rr : ReferenceRange, rr.normal = none →
      determineResultStatus value (some rr) patient = Status.unknown) ∧
    (∀ rr : ReferenceRange, rr.normal.isSome → value.parseFloat = none →
      determineResultStatus value (some rr) patient = Status.text_result) := by
  refine ⟨rfl, fun rr hn => ?_, fun rr hn hv => ?_⟩
  · unfold determineResultStatus
    simp [hn]
  · obtain ⟨nr, hnr⟩ := Option.isSome_iff_exists.mp hn
    unfold determineResultStatus
    simp [hnr, hv]

/-- Witness for C4 at concrete inputs. -/
theorem determineResultStatus_malformed_spec_witness :
    determineResultStatus JSVal.nan none ⟨"male"⟩ = Status.unknown ∧
    determineResultStatus JSVal.nan (some ⟨none, none, none⟩) ⟨"male"⟩ =
      Status.unknown ∧
    determineResultStatus JSVal.nan
      (some ⟨some ⟨JSVal.num 1, JSVal.num 2⟩, none, none⟩) ⟨"male"⟩ =
      Status.text_result :=
  ⟨(determineResultStatus_malformed_spec JSVal.nan ⟨"male"⟩).1,
   (determineResultStatus_malformed_spec JSVal.nan ⟨"male"⟩).2.1 _ rfl,
   (determineResultStatus_malformed_spec JSVal.nan ⟨"male"⟩).2.2 _ rfl rfl⟩

/-- C5: gender override precedence — a `male` patient with a `male`
override uses it, a `female` patient with a `female` override uses it,
otherwise the `normal` range is used; consequently with both overrides
present, a female patient's value inside the female range but outside the
normal range still classifies as `normal`. -/
theorem genderOverride_spec :
    (∀ (rr : ReferenceRange) (normalRange m : Range) (p : Patient),
      p.gender = "male" → rr.male = some m →
      selectRange rr normalRange p = m) ∧
    (∀ (rr : ReferenceRange) (normalRange f : Range) (p : Patient),
      p.gender = "female" → rr.female = some f →
      selectRange rr normalRange p = f) ∧
    (∀ (rr : ReferenceRange) (normalRange : Range) (p : Patient),
      (p.gender ≠ "male" ∨ rr.male = none) →
      (p.gender ≠ "female" ∨ rr.female = none) →
      selectRange rr normalRange p = normalRange) ∧
    (∀ (value : JSVal) (rr : ReferenceRange) (normalRange m f : Range)
        (v fmn fmx nmn nmx : ℚ),
      rr.normal = some normalRange → rr.male = some m → rr.female = some f →
      value.parseFloat = some v →
      f.min.parseFloat = some fmn → f.max.parseFloat = some fmx →
      normalRange.min.parseFloat = some nmn →
      normalRange.max.parseFloat = some nmx →
      fmn ≤ v → v ≤ fmx → (v < nmn ∨ nmx < v) →
      determineResultStatus value (some rr) ⟨"female"⟩ = Status.normal) := by
  refine ⟨fun rr normalRange m p hg hm => ?_,
    fun rr normalRange f p hg hf => ?_,
    fun rr normalRange p hm hf => ?_,
    fun value rr normalRange m f v fmn fmx nmn nmx hnorm hm hf hv hfmn hfmx
      _ _ hlo hhi _ => ?_⟩
  · unfold selectRange
    simp [hg, hm]
  · have hg' : p.gender ≠ "male" := by
      rw [hg]; intro h; exact absurd h (by decide)
    unfold selectRange
    simp [hg, hg', hf]
  · unfold selectRange
    rcases hm with hm | hm
    · rcases hf with hf | hf
      · simp [hm, hf]
      · simp [hm, hf]
    · rcases hf with hf | hf
      · simp [hm, hf]
      · simp [hm, hf]
  · have hsel : selectRange rr normalRange ⟨"female"⟩ = f := by
      unfold selectRange
      simp [hf, show ("female" : String) ≠ "male" by decide]
    unfold determineResultStatus
    simp only [hnorm, hv, hsel, hfmn, hfmx, jsLt, jsGt]
    simp [not_lt_of_le hlo, not_lt_of_le hhi]

/-- Witness for C5 at concrete inputs: female patient, value 5 sits in the
female override [4, 6] but outside the normal range [1, 2], and the final
status is `normal`. -/
theorem genderOverride_spec_witness :
    determineResultStatus (JSVal.num 5)
      (some ⟨some ⟨JSVal.num 1, JSVal.num 2⟩,
             some ⟨JSVal.num 0, JSVal.num 10⟩,
             some ⟨JSVal.num 4, JSVal.num 6⟩⟩) ⟨"female"⟩ = Status.normal :=
  genderOverride_spec.2.2.2 (JSVal.num 5)
    ⟨some ⟨JSVal.num 1, JSVal.num 2⟩,
     some ⟨JSVal.num 0, JSVal.num 10⟩,
     some ⟨JSVal.num 4, JSVal.num 6⟩⟩
    ⟨JSVal.num 1, JSVal.num 2⟩ ⟨JSVal.num 0, JSVal.num 10⟩
    ⟨JSVal.num 4, JSVal.num 6⟩ 5 4 6 1 2
    rfl rfl rfl rfl rfl rfl rfl rfl (by norm_num) (by norm_num)
    (Or.inr (by norm_num))

/-- C9: a present-but-malformed reference range (its active bound's `min`
and `max` both fail numeric parsing) silently classifies every numeric
value as `normal`, because both comparisons against `NaN` are false. -/
theorem malformedRange_normal_spec
    (value : JSVal) (rr : ReferenceRange) (patient : Patient)
    (normalRange : Range) (v : ℚ)
    (hnorm : rr.normal = some normalRange)
    (hv : value.parseFloat = some v)
    (hmin : (selectRange rr normalRange patient).min.parseFloat = none)
    (hmax : (selectRange rr normalRange patient).max.parseFloat = none) :
    determineResultStatus value (some rr) patient = Status.normal := by
  unfold determineResultStatus
  simp [hnorm, hv, hmin, hmax, jsLt, jsGt]

/-- Witness for C9 at concrete inputs: an empty `normal` object (both
bounds parse to `NaN`) classifies the numeric value 1000000 as `normal`. -/
theorem malformedRange_normal_spec_witness :
    determineResultStatus (JSVal.num 1000000)
      (some ⟨some ⟨JSVal.nan, JSVal.nan⟩, none, none⟩) ⟨"female"⟩ =
      Status.normal :=
  malformedRange_normal_spec (JSVal.num 1000000)
    ⟨some ⟨JSVal.nan, JSVal.nan⟩, none, none⟩ ⟨"female"⟩
    ⟨JSVal.nan, JSVal.nan⟩ 1000000 rfl rfl rfl rfl

/-- C2: a `normal` status yields severity `normal` regardless of parameter
or value; otherwise severity is `critical` exactly when the lower-cased
parameter is in the fixed critical-threshold table (glucose 400/40,
creatinine 5/0, hemoglobin 20/7, platelets 1000/50, potassium 6/2.5,
sodium 155/125), the value parses, and the high/low comparison fires; in
every other non-normal case the severity is `abnormal`. -/
theorem determineSeverity_spec (parameter : String) (value : JSVal)
    (status : Status) :
    (determineSeverity parameter value Status.normal = Severity.normal) ∧
    (criticalThresholds "glucose" = some (400, 40) ∧
     criticalThresholds "creatinine" = some (5, 0) ∧
     criticalThresholds "hemoglobin" = some (20, 7) ∧
     criticalThresholds "platelets" = some (1000, 50) ∧
     criticalThresholds "potassium" = some (6, 2.5) ∧
     criticalThresholds "sodium" = some (155, 125)) ∧
    (status ≠ Status.normal →
      ((determineSeverity parameter value status = Severity.critical ↔
        ∃ t v, criticalThresholds (jsToLowerCase parameter) = some t ∧
          value.parseFloat = some v ∧
          ((status = Status.high ∧ t.1 ≤ v) ∨
           (status = Status.low ∧ v ≤ t.2))) ∧
       (determineSeverity parameter value status ≠ Severity.critical →
        determineSeverity parameter value status = Severity.abnormal))) := by
  refine ⟨by simp [determineSeverity],
    ⟨rfl, rfl, rfl, rfl, rfl, rfl⟩, fun hstat => ?_⟩
  rcases hval : value.parseFloat with _ | v
  · have hres : determineSeverity parameter value status = Severity.abnormal := by
      unfold determineSeverity
      simp [hval, hstat]
    refine ⟨⟨fun h => ?_, fun h => ?_⟩, fun _ => hres⟩
    · rw [hres] at h
      cases h
    · obtain ⟨t', v', _, hv', _⟩ := h
      cases hv'
  · rcases hth : criticalThresholds (jsToLowerCase parameter) with _ | t
    · have hres : determineSeverity parameter value status = Severity.abnormal := by
        unfold determineSeverity
        simp [hval, hth, hstat]
      refine ⟨⟨fun h => ?_, fun h => ?_⟩, fun _ => hres⟩
      · rw [hres] at h
        cases h
      · obtain ⟨t', v', ht', _, _⟩ := h
        cases ht'
    · by_cases hc : (status = Status.high ∧ t.1 ≤ v) ∨
        (status = Status.low ∧ v ≤ t.2)
      · have hres : determineSeverity parameter value status = Severity.critical := by
          unfold determineSeverity
          simp only [if_neg hstat, hval, hth]
          have : decide ((status = Status.high ∧ v ≥ t.1) ∨
              (status = Status.low ∧ v ≤ t.2)) = true := by
            simpa [ge_iff_le] using hc
          simp [this]
        exact ⟨⟨fun _ => ⟨t, v, rfl, rfl, hc⟩, fun _ => hres⟩,
          fun h => absurd hres h⟩
      · have hres : determineSeverity parameter value status = Severity.abnormal := by
          unfold determineSeverity
          simp only [if_neg hstat, hval, hth]
          have : decide ((status = Status.high ∧ v ≥ t.1) ∨
              (status = Status.low ∧ v ≤ t.2)) = false := by
            simpa [ge_iff_le] using hc
          simp [this, hstat]
        refine ⟨⟨fun h => ?_, fun h => ?_⟩, fun _ => hres⟩
        · rw [hres] at h
          cases h
        · obtain ⟨t', v', ht', hv', hcomp⟩ := h
          cases ht'
          cases hv'
          exact absurd hcomp hc

/-- Witness for C2 at concrete inputs: status `high` for parameter
"Glucose" at value 450 ≥ 400 is `critical`. -/
theorem determineSeverity_spec_witness :
    determineSeverity "Glucose" (JSVal.num 450) Status.high =
      Severity.critical :=
  ((determineSeverity_spec "Glucose" (JSVal.num 450) Status.high).2.2
    (by decide)).1.mpr
    ⟨(400, 40), 450, by decide, rfl, Or.inl ⟨rfl, by norm_num⟩⟩

/-- C8: the clinical-significance lookup is total: each table sentence
(glucose, cholesterol, hemoglobin with high/low entries) is returned for
its key, and any unknown parameter, or a status with no entry under a
known parameter (including `normal`, `unknown`, `text_result`), falls back
to the generic consultation string. -/
theorem getClinicalSignificance_spec (parameter : String) (status : Status) :
    (getClinicalSignificance "glucose" Status.high =
      "May indicate diabetes or prediabetes") ∧
    (getClinicalSignificance "glucose" Status.low =
      "May indicate hypoglycemia") ∧
    (getClinicalSignificance "cholesterol" Status.high =
      "Increased risk of heart disease") ∧
    (getClinicalSignificance "cholesterol" Status.low =
      "Generally not concerning") ∧
    (getClinicalSignificance "hemoglobin" Status.high =
      "May indicate dehydration or blood disorders") ∧
    (getClinicalSignificance "hemoglobin" Status.low =
      "May indicate anemia") ∧
    (jsToLowerCase parameter ≠ "glucose" → jsToLowerCase parameter ≠ "cholesterol" →
      jsToLowerCase parameter ≠ "hemoglobin" →
      getClinicalSignificance parameter status =
        "Consult your healthcare provider for interpretation") ∧
    (status = Status.normal ∨ status = Status.unknown ∨
        status = Status.text_result →
      getClinicalSignificance parameter status =
        "Consult your healthcare provider for interpretation") := by
  refine ⟨by decide, by decide, by decide, by decide, by decide, by decide,
    fun h1 h2 h3 => ?_, fun hs => ?_⟩
  · have htab : significanceTable (jsToLowerCase parameter) status = none := by
      unfold significanceTable
      split <;> simp_all
    unfold getClinicalSignificance
    rw [htab]
    rfl
  · have htab : significanceTable (jsToLowerCase parameter) status = none := by
      unfold significanceTable
      rcases hs with hs | hs | hs <;> subst hs <;> split <;> simp_all
    unfold getClinicalSignificance
    rw [htab]
    rfl

/-- Witness for C8 at concrete inputs: unknown parameter, and a known
parameter with status `normal`, both give the fallback sentence. -/
theorem getClinicalSignificance_spec_witness :
    getClinicalSignificance "tsh" Status.high =
      "Consult your healthcare provider for interpretation" ∧
    getClinicalSignificance "glucose" Status.normal =
      "Consult your healthcare provider for interpretation" :=
  ⟨(getClinicalSignificance_spec "tsh" Status.high).2.2.2.2.2.2.1
    (by decide) (by decide) (by decide),
   (getClinicalSignificance_spec "glucose" Status.normal).2.2.2.2.2.2.2
    (Or.inl rfl)⟩

/-- A sample all-normal analyzed result, used to evaluate the aggregation
theorems at concrete inputs. -/
def sampleNormal : AnalyzedResult :=
  { parameter := "hemoglobin", value := JSVal.num 14, unit := "g/dL",
    referenceRange := some ⟨some ⟨JSVal.num 12, JSVal.num 16⟩, none, none⟩,
    status := Status.normal, explanation := "within range",
    severity := Severity.normal, clinicalSignificance := "n/a" }

/-- A sample critical analyzed result (glucose 450 ≥ 400), used to evaluate
the aggregation theorems at concrete inputs. -/
def sampleCritical : AnalyzedResult :=
  { parameter := "glucose", value := JSVal.num 450, unit := "mg/dL",
    referenceRange := some ⟨some ⟨JSVal.num 70, JSVal.num 99⟩, none, none⟩,
    status := Status.high, explanation := "very high",
    severity := Severity.critical, clinicalSignificance := "c" }

/-- A sample unknown-status analyzed result (no reference range), used to
evaluate the aggregation theorems at concrete inputs. -/
def sampleUnknown : AnalyzedResult :=
  { parameter := "tsh", value := JSVal.nan, unit := "",
    referenceRange := none, status := Status.unknown,
    explanation := "no range configured",
    severity := Severity.abnormal, clinicalSignificance := "c" }

/-- C6: the recommendations are a binary choice between two fixed lists:
the "all normal" list when no result has a non-`normal` status, and the
"abnormal found" list as soon as one result does, independent of count or
severity. -/
theorem generateRecommendations_spec (rs : List AnalyzedResult) :
    (allNormalRecommendations =
      ["Continue regular health checkups",
       "Maintain healthy lifestyle",
       "Follow up as recommended by your doctor"]) ∧
    (abnormalRecommendations =
      ["Discuss results with your healthcare provider",
       "Follow any treatment recommendations",
       "Schedule follow-up testing if advised",
       "Monitor symptoms and report changes"]) ∧
    ((∀ r ∈ rs, r.status = Status.normal) →
      generateRecommendations rs = allNormalRecommendations) ∧
    ((∃ r ∈ rs, r.status ≠ Status.normal) →
      generateRecommendations rs = abnormalRecommendations) := by
  refine ⟨rfl, rfl, fun h => ?_, fun ⟨r, hr, hne⟩ => ?_⟩
  · have hnil : (rs.filter fun r => r.status ≠ Status.normal) = [] := by
      rw [List.filter_eq_nil_iff]
      intro a ha
      simp [h a ha]
    have hc : (rs.filter fun r => r.status ≠ Status.normal).length = 0 := by
      rw [hnil]
      rfl
    exact if_pos hc
  · have hmem : r ∈ rs.filter fun r => r.status ≠ Status.normal :=
      List.mem_filter.mpr ⟨hr, by simp [hne]⟩
    have hlen : (rs.filter fun r => r.status ≠ Status.normal).length ≠ 0 := by
      intro h0
      rw [List.length_eq_zero] at h0
      rw [h0] at hmem
      cases hmem
    exact if_neg hlen

/-- Witness for C6 at concrete inputs: an all-normal report gets the fixed
"all normal" list, and a report with one critical result gets the fixed
"abnormal found" list. -/
theorem generateRecommendations_spec_witness :
    generateRecommendations [sampleNormal] = allNormalRecommendations ∧
    generateRecommendations [sampleNormal, sampleCritical] =
      abnormalRecommendations :=
  ⟨(generateRecommendations_spec [sampleNormal]).2.2.1
    (fun r hr => by rw [List.mem_singleton] at hr; subst hr; rfl),
   (generateRecommendations_spec [sampleNormal, sampleCritical]).2.2.2
    ⟨sampleCritical, by simp, by decide⟩⟩

/-- C7: `criticalValues` is the order-preserving subsequence of the
annotated results whose severity is `critical`, each carrying
`urgency = immediate_attention_required`; nothing of severity `normal` or
`abnormal` contributes an entry, and every critical result does. -/
theorem identifyCriticalValues_spec (rs : List AnalyzedResult) :
    (identifyCriticalValues rs).Sublist (rs.map toCriticalValue) ∧
    (∀ c ∈ identifyCriticalValues rs,
      c.urgency = "immediate_attention_required") ∧
    (∀ c ∈ identifyCriticalValues rs,
      ∃ r ∈ rs, r.severity = Severity.critical ∧ c = toCriticalValue r) ∧
    (∀ r ∈ rs, r.severity = Severity.critical →
      toCriticalValue r ∈ identifyCriticalValues rs) := by
  refine ⟨List.Sublist.map toCriticalValue (List.filter_sublist rs),
    fun c hc => ?_, fun c hc => ?_, fun r hr hcrit => ?_⟩
  · obtain ⟨r, _, rfl⟩ := List.mem_map.mp hc
    rfl
  · obtain ⟨r, hrf, rfl⟩ := List.mem_map.mp hc
    have hm := List.mem_filter.mp hrf
    exact ⟨r, hm.1, by simpa using hm.2, rfl⟩
  · exact List.mem_map_of_mem _ (List.mem_filter.mpr ⟨hr, by simp [hcrit]⟩)

/-- Witness for C7 at concrete inputs: in a report of one normal and one
critical result, `criticalValues` holds exactly the annotated critical
entry. -/
theorem identifyCriticalValues_spec_witness :
    toCriticalValue sampleCritical ∈
      identifyCriticalValues [sampleNormal, sampleCritical] :=
  (identifyCriticalValues_spec [sampleNormal, sampleCritical]).2.2.2
    sampleCritical (by simp) rfl

/-- Sum of the per-severity points of `calculateRiskScore`, expressed by
counting critical and abnormal results. -/
theorem severityPoints_sum (rs : List AnalyzedResult) :
    (rs.map fun r => severityPoints r.severity).sum =
      3 * ((rs.filter fun r => r.severity = Severity.critical).length : ℤ) +
        ((rs.filter fun r => r.severity = Severity.abnormal).length : ℤ) := by
  induction rs with
  | nil => simp
  | cons r rs ih =>
    rw [List.map_cons, List.sum_cons, List.filter_cons, List.filter_cons, ih]
    cases hsev : r.severity <;> simp [severityPoints] <;> push_cast <;> ring

/-- C3 counterexample: on the empty sequence of results the code computes
`Math.round(0 / 0) = NaN` — there is no integer risk score, and in
particular it is not `0`. -/
theorem calculateRiskScore_empty_counterexample :
    calculateRiskScore [] = none ∧ calculateRiskScore [] ≠ some 0 := by
  constructor
  · rfl
  · intro h
    cases h

/-- C3 (amended): for every nonempty sequence of classified results the
risk score is round((3·#critical + 1·#abnormal + 0·#normal) /
(3·#results) · 100); on the empty sequence the code divides 0 by 0,
yielding `NaN` rather than the integer 0. -/
theorem calculateRiskScore_spec (rs : List AnalyzedResult) (h : rs ≠ []) :
    calculateRiskScore rs =
      some (jsRound (
        ((3 * ((rs.filter fun r => r.severity = Severity.critical).length : ℚ) +
          ((rs.filter fun r => r.severity = Severity.abnormal).length : ℚ)) /
          (3 * (rs.length : ℚ))) * 100)) ∧
    calculateRiskScore [] = none := by
  refine ⟨?_, rfl⟩
  have hlen0 : rs.length ≠ 0 := fun h0 => h (List.length_eq_zero.mp h0)
  have hlen : ((rs.length : ℤ)) * 3 ≠ 0 :=
    mul_ne_zero (Int.natCast_ne_zero.mpr hlen0) (by norm_num)
  simp only [calculateRiskScore, if_neg hlen]
  rw [severityPoints_sum]
  push_cast
  ring_nf

/-- Witness for C3 at a concrete input: a single critical result scores
round(3/3·100) = 100. -/
theorem calculateRiskScore_spec_witness :
    calculateRiskScore [sampleCritical] = some 100 := by
  rw [(calculateRiskScore_spec [sampleCritical] (by simp)).1]
  norm_num [sampleCritical, jsRound, List.filter_cons, List.filter_nil,
    show ¬(Severity.critical = Severity.abnormal) from by decide]

/-- C10: `unknown` and `text_result` statuses get severity `abnormal`
(the critical branch cannot fire), each contributes +1 to the risk score
(a nonempty report of only abnormal-severity results scores
round(n/(3n)·100) = 33), and an `unknown`-status result alone selects the
"abnormal found" recommendations list. -/
theorem unknownStatus_aggregation_spec (parameter : String) (value : JSVal)
    (rs : List AnalyzedResult) :
    (determineSeverity parameter value Status.unknown = Severity.abnormal) ∧
    (determineSeverity parameter value Status.text_result =
      Severity.abnormal) ∧
    (rs ≠ [] → (∀ r ∈ rs, r.severity = Severity.abnormal) →
      calculateRiskScore rs = some 33) ∧
    ((∃ r ∈ rs, r.status = Status.unknown) →
      generateRecommendations rs = abnormalRecommendations) := by
  have habn : ∀ st, st ≠ Status.normal → st ≠ Status.high → st ≠ Status.low →
      determineSeverity parameter value st = Severity.abnormal := by
    intro st h1 h2 h3
    unfold determineSeverity
    rcases hv : value.parseFloat with _ | v <;>
      rcases ht : criticalThresholds (jsToLowerCase parameter) with _ | t <;>
      simp [hv, ht, h1, h2, h3]
  refine ⟨habn _ (by decide) (by decide) (by decide),
    habn _ (by decide) (by decide) (by decide),
    fun hne hall => ?_, fun ⟨r, hr, hst⟩ => ?_⟩
  · have hlen0 : rs.length ≠ 0 := fun h0 => hne (List.length_eq_zero.mp h0)
    have hlen : ((rs.length : ℤ)) * 3 ≠ 0 :=
      mul_ne_zero (Int.natCast_ne_zero.mpr hlen0) (by norm_num)
    have hc0 : (rs.filter fun r => r.severity = Severity.critical) = [] := by
      rw [List.filter_eq_nil_iff]
      intro a ha
      simp [hall a ha]
    have ha1 : (rs.filter fun r => r.severity = Severity.abnormal) = rs :=
      List.filter_eq_self.mpr (fun a ha => by simp [hall a ha])
    have hsum : (rs.map fun r => severityPoints r.severity).sum =
        (rs.length : ℤ) := by
      rw [severityPoints_sum, hc0, ha1]
      simp
    simp only [calculateRiskScore, if_neg hlen, hsum]
    have hq : ((rs.length : ℚ)) ≠ 0 := Nat.cast_ne_zero.mpr hlen0
    have harg : (((rs.length : ℤ) : ℚ)) / ((((rs.length : ℤ)) * 3 : ℤ) : ℚ)
        * 100 = 100 / 3 := by
      push_cast
      field_simp
      ring
    rw [harg]
    norm_num [jsRound]
  · have hne : r.status ≠ Status.normal := by
      rw [hst]
      decide
    have hmem : r ∈ rs.filter fun r => r.status ≠ Status.normal :=
      List.mem_filter.mpr ⟨hr, by simp [hne]⟩
    have hlen : (rs.filter fun r => r.status ≠ Status.normal).length ≠ 0 := by
      intro h0
      rw [List.length_eq_zero] at h0
      rw [h0] at hmem
      cases hmem
    exact if_neg hlen

/-- Witness for C10 at concrete inputs: a report holding only one
unknown-status result scores 33 and gets the "abnormal found"
recommendations. -/
theorem unknownStatus_aggregation_spec_witness :
    determineSeverity "tsh" JSVal.nan Status.unknown = Severity.abnormal ∧
    calculateRiskScore [sampleUnknown] = some 33 ∧
    generateRecommendations [sampleUnknown] = abnormalRecommendations :=
  ⟨(unknownStatus_aggregation_spec "tsh" JSVal.nan [sampleUnknown]).1,
   (unknownStatus_aggregation_spec "tsh" JSVal.nan [sampleUnknown]).2.2.1
     (by simp)
     (fun r hr => by rw [List.mem_singleton] at hr; subst hr; rfl),
   (unknownStatus_aggregation_spec "tsh" JSVal.nan [sampleUnknown]).2.2.2
     ⟨sampleUnknown, by simp, rfl⟩⟩

end AIReportService
